import Mathlib

/-! Shallow embedding of the session / access-control core of the
`fullstack-boilerplate` backend (Fastify + Prisma):

* `AuthService.login` / `AuthService.refresh`   — `apps/backend/src/services/auth.service.ts`
* `authMiddleware`                              — `apps/backend/src/middlewares/auth.middleware.ts`
* `requireRole`                                 — `apps/backend/src/middlewares/rbac.middleware.ts`
* `csrfMiddleware`                              — CSRF middleware
* `CsrfService`                                 — CSRF token service
* `CleanupService.cleanupExpiredTokens`         — `apps/backend/src/services/cleanup.service.ts`
* `PasswordResetService`                        — `apps/backend/src/services/password-reset.service.ts`

The Prisma store is modelled as lists of rows; `Date` instants are `Nat`
milliseconds; the JWT and bcrypt libraries are oracles packaged in `AuthEnv`;
random token values (`randomBytes(32).toString(hex)`, `jwt.sign`) and
Prisma-generated row ids are explicit `fresh*` parameters.  JavaScript string
truthiness (`!s` is `true` for `undefined` and for `""`) is modelled by
`jsFalsy`. -/

/-- A row of the Prisma `User` model (fields used by the embedded services). -/
structure UserRow where
  id : String
  email : String
  password : String
  role : String
  emailVerified : Bool
  deriving DecidableEq, Repr

/-- A row of the Prisma `RefreshToken` model. -/
structure RefreshTokenRow where
  id : Nat
  token : String
  userId : String
  expiresAt : Nat
  revoked : Bool
  deriving DecidableEq, Repr

/-- A row of the Prisma `VerificationToken` / `PasswordResetToken` / `CsrfToken`
models, which share the same shape: id, unique token string, owning user id,
expiry instant. -/
structure TokenRow where
  id : Nat
  token : String
  userId : String
  expiresAt : Nat
  deriving DecidableEq, Repr

/-- The database state touched by the embedded services. -/
structure DB where
  users : List UserRow
  refreshTokens : List RefreshTokenRow
  verificationTokens : List TokenRow
  passwordResetTokens : List TokenRow
  csrfTokens : List TokenRow
  deriving DecidableEq, Repr

/-- Oracles for the external crypto libraries:
`refreshValid t` models `jwt.verify(t, env.JWT_REFRESH_SECRET)` succeeding;
`signAccess userId role` models `jwt.sign({userId, role}, env.JWT_SECRET)`;
`signRefresh userId` models `jwt.sign({userId}, env.JWT_REFRESH_SECRET)`;
`bcryptCompare password hash` models `bcrypt.compare`;
`bcryptHash password` models `bcrypt.hash(password, 10)`. -/
structure AuthEnv where
  refreshValid : String → Bool
  signAccess : String → String → String
  signRefresh : String → String
  bcryptCompare : String → String → Bool
  bcryptHash : String → String

/-- `7 * 24 * 60 * 60 * 1000` — the refresh-token lifetime used by
`storeRefreshToken`. -/
def sevenDaysMs : Nat := 7 * 24 * 60 * 60 * 1000

/-- One hour in milliseconds — `expiresAt.setHours(expiresAt.getHours() + 1)`
for CSRF and password-reset tokens. -/
def oneHourMs : Nat := 60 * 60 * 1000

/-- JavaScript string truthiness: `!x` is `true` when `x` is `undefined`
(modelled `none`) or the empty string. -/
def jsFalsy : Option String → Bool
  | none => true
  | some s => s == ""

/-- JavaScript `s.split(c)` on a character separator, over char lists
(keeps empty segments, as `"a  b".split(" ")` does). -/
def splitOnCharAux (c : Char) : List Char → List (List Char)
  | [] => [[]]
  | x :: xs =>
    let rest := splitOnCharAux c xs
    if x = c then [] :: rest
    else
      match rest with
      | [] => [[x]]
      | r :: rs => (x :: r) :: rs

/-- JavaScript `authHeader.split(' ')`. -/
def jsSplitSpace (s : String) : List String :=
  (splitOnCharAux ' ' s.toList).map fun l => String.mk l

/-- JavaScript `s.startsWith(pre)`. -/
def jsStartsWith (s pre : String) : Bool :=
  s.toList.take pre.toList.length == pre.toList

namespace AuthService

/-- Result of `AuthService.refresh`: `{ accessToken, refreshToken }`. -/
structure RefreshResult where
  accessToken : String
  refreshToken : String
  deriving DecidableEq, Repr

/-- Result of `AuthService.login`: the user (without password) plus both
tokens; only the id of the returned user is tracked. -/
structure LoginSuccess where
  userId : String
  accessToken : String
  refreshToken : String
  deriving DecidableEq, Repr

/-- `AuthService.storeRefreshToken`: `prisma.refreshToken.create` with
`expiresAt = Date.now() + 7 * 24 * 60 * 60 * 1000`.  `freshId` is the
Prisma-generated row id. -/
def storeRefreshToken (now freshId : Nat) (token userId : String) (db : DB) : DB :=
  let rows := db.refreshTokens ++ [⟨freshId, token, userId, now + sevenDaysMs, false⟩]
  { db with refreshTokens := rows }

/-- The fixed dummy hash `AuthService.login` compares against when no user
matches the email. -/
def dummyBcryptHash : String :=
  "$2a$10$invalidhashxxxxxxxxxxxxxxxxxxxxxxxxxxxxxxxxxxxxx"

/-- `AuthService.login`.  The second component of the result is the trace of
`bcrypt.compare(password, hash)` calls executed, in order.  The JS line
`const passwordToCompare = user?.password || dummyHash` falls back to the
dummy hash when the user is absent or the stored hash is the empty string. -/
def login (env : AuthEnv) (now freshId : Nat) (db : DB) (email password : String) :
    Except String (DB × LoginSuccess) × List (String × String) :=
  let user? := db.users.find? fun u => u.email == email
  let passwordToCompare :=
    match user? with
    | some u => if u.password = "" then dummyBcryptHash else u.password
    | none => dummyBcryptHash
  let isPasswordValid := env.bcryptCompare password passwordToCompare
  let comparisons := [(password, passwordToCompare)]
  match user? with
  | none => (Except.error "Invalid credentials", comparisons)
  | some user =>
    if isPasswordValid then
      let refreshToken := env.signRefresh user.id
      (Except.ok (storeRefreshToken now freshId refreshToken user.id db,
        ⟨user.id, env.signAccess user.id user.role, refreshToken⟩), comparisons)
    else (Except.error "Invalid credentials", comparisons)

/-- `AuthService.refresh`: verify the JWT (`verifyRefreshToken`, which throws
"Invalid or expired refresh token"), look the row up with
`prisma.refreshToken.findUnique({where: {token}, include: {user}})`, reject a
missing / revoked / expired row, revoke the found row
(`update where id, data: {revoked: true}`), then mint and store a new refresh
token. -/
def refresh (env : AuthEnv) (now freshId : Nat) (db : DB) (refreshToken : String) :
    Except String (DB × RefreshResult) :=
  if env.refreshValid refreshToken then
    match db.refreshTokens.find? (fun r => r.token == refreshToken) with
    | none => Except.error "Invalid or expired refresh token"
    | some storedToken =>
      if storedToken.revoked || decide (storedToken.expiresAt < now) then
        Except.error "Invalid or expired refresh token"
      else
        match db.users.find? (fun u => u.id == storedToken.userId) with
        | none => Except.error "User not found"
        | some user =>
          let revokedRows := db.refreshTokens.map (fun r =>
            if r.id == storedToken.id then { r with revoked := true } else r)
          let revokedDb : DB := { db with refreshTokens := revokedRows }
          let newRefreshToken := env.signRefresh storedToken.userId
          Except.ok (storeRefreshToken now freshId newRefreshToken storedToken.userId revokedDb,
            ⟨env.signAccess storedToken.userId user.role, newRefreshToken⟩)
  else Except.error "Invalid or expired refresh token"

end AuthService

namespace CsrfService

/-- `CsrfService.generateToken`: delete every `CsrfToken` row of the user,
then insert a fresh one expiring in one hour.  `freshToken` models
`randomBytes(32).toString('hex')`, `freshId` the generated row id. -/
def generateToken (now freshId : Nat) (freshToken userId : String) (db : DB) :
    String × DB :=
  let expiresAt := now + oneHourMs
  let cleared := db.csrfTokens.filter fun r => r.userId != userId
  let rows := cleared ++ [⟨freshId, freshToken, userId, expiresAt⟩]
  (freshToken, { db with csrfTokens := rows })

/-- `CsrfService.verifyToken`: `findFirst` on `{token, userId}`; a missing row
yields `false`; an expired row is deleted (`delete where id`) and yields
`false`; otherwise `true`. -/
def verifyToken (now : Nat) (token userId : String) (db : DB) : Bool × DB :=
  match db.csrfTokens.find? (fun r => r.token == token && r.userId == userId) with
  | none => (false, db)
  | some csrfToken =>
    if csrfToken.expiresAt < now then
      (false, { db with csrfTokens := db.csrfTokens.filter (fun r => r.id != csrfToken.id) })
    else (true, db)

/-- `CsrfService.revokeUserTokens`: `deleteMany where userId`. -/
def revokeUserTokens (userId : String) (db : DB) : DB :=
  { db with csrfTokens := db.csrfTokens.filter (fun r => r.userId != userId) }

end CsrfService

namespace CleanupService

/-- Injected store failures: whether each of the four `deleteMany` calls of
`cleanupExpiredTokens` throws (a throwing `deleteMany` deletes nothing). -/
structure SweepFailure where
  refreshFails : Bool
  verificationFails : Bool
  resetFails : Bool
  csrfFails : Bool
  deriving DecidableEq, Repr

/-- The failure-free environment. -/
def noFailure : SweepFailure := ⟨false, false, false, false⟩

/-- `deleteMany where expiresAt < now` on a token table: keep the rows whose
expiry has not passed. -/
def sweepRows (now : Nat) (rows : List TokenRow) : List TokenRow :=
  rows.filter fun r => !(decide (r.expiresAt < now))

/-- `CleanupService.cleanupExpiredTokens`: the four `deleteMany` calls run
sequentially inside one `try { ... } catch (error) { console.error(...) }`;
the catch swallows the error (the function always returns normally), so the
second component records whether an error was caught and logged. -/
def cleanupExpiredTokens (f : SweepFailure) (now : Nat) (db : DB) : DB × Bool :=
  if f.refreshFails then (db, true)
  else
    let keptRefresh := db.refreshTokens.filter (fun r => !(decide (r.expiresAt < now)))
    let db1 : DB := { db with refreshTokens := keptRefresh }
    if f.verificationFails then (db1, true)
    else
      let db2 : DB := { db1 with verificationTokens := sweepRows now db1.verificationTokens }
      if f.resetFails then (db2, true)
      else
        let db3 : DB := { db2 with passwordResetTokens := sweepRows now db2.passwordResetTokens }
        if f.csrfFails then (db3, true)
        else ({ db3 with csrfTokens := sweepRows now db3.csrfTokens }, false)

end CleanupService

namespace PasswordResetService

/-- Result type of `requestReset` / `resetPassword`: `{ success: boolean }`. -/
structure SuccessResult where
  success : Bool
  deriving DecidableEq, Repr

/-- `PasswordResetService.requestReset`: look the user up by email; if absent,
return `{success: true}` without touching the store; otherwise delete the
user's previous reset tokens and insert a fresh one expiring in one hour. -/
def requestReset (now freshId : Nat) (freshToken email : String) (db : DB) :
    SuccessResult × DB :=
  match db.users.find? (fun u => u.email == email) with
  | none => (⟨true⟩, db)
  | some user =>
    let expiresAt := now + oneHourMs
    let cleared := db.passwordResetTokens.filter fun r => r.userId != user.id
    let rows := cleared ++ [⟨freshId, freshToken, user.id, expiresAt⟩]
    (⟨true⟩, { db with passwordResetTokens := rows })

/-- `PasswordResetService.verifyResetToken`: `findUnique where token`; throws
"Token invalide" when absent, "Token expiré" when expired. -/
def verifyResetToken (now : Nat) (token : String) (db : DB) : Except String TokenRow :=
  match db.passwordResetTokens.find? (fun r => r.token == token) with
  | none => Except.error "Token invalide"
  | some resetToken =>
    if resetToken.expiresAt < now then Except.error "Token expiré"
    else Except.ok resetToken

/-- `PasswordResetService.resetPassword`: verify the token, hash the new
password, `user.update` the stored hash (Prisma throws when no user row has
that id), delete all of the user's reset tokens, and revoke all of the user's
refresh tokens (`updateMany where userId, data: {revoked: true}`). -/
def resetPassword (env : AuthEnv) (now : Nat) (token newPassword : String) (db : DB) :
    Except String (SuccessResult × DB) :=
  match verifyResetToken now token db with
  | Except.error e => Except.error e
  | Except.ok resetToken =>
    if db.users.any (fun u => u.id == resetToken.userId) then
      let hashed := env.bcryptHash newPassword
      let updatedUsers := db.users.map (fun u =>
        if u.id == resetToken.userId then { u with password := hashed } else u)
      let db1 : DB := { db with users := updatedUsers }
      let keptResets := db1.passwordResetTokens.filter (fun r => r.userId != resetToken.userId)
      let db2 : DB := { db1 with passwordResetTokens := keptResets }
      let revokedRefresh := db2.refreshTokens.map (fun r =>
        if r.userId == resetToken.userId then { r with revoked := true } else r)
      let db3 : DB := { db2 with refreshTokens := revokedRefresh }
      Except.ok (⟨true⟩, db3)
    else Except.error "Record to update not found"

end PasswordResetService

/-- The access-token payload `jwt.verify(token, env.JWT_SECRET)` returns:
`{ userId, role }`. -/
structure AccessPayload where
  userId : String
  role : String
  deriving DecidableEq, Repr

/-- `request.user` as declared in `rbac.middleware.ts`:
`{ userId: string; role?: Role }`. -/
structure RequestUser where
  userId : String
  role : Option String
  deriving DecidableEq, Repr

/-- Outcome of a middleware: fall through to the next handler, an
unauthenticated / generic rejection, or the RBAC 403 that reports the
required role set and the caller's role. -/
inductive GateOutcome where
  | next : GateOutcome
  | reply (status : Nat) (error : String) : GateOutcome
  | replyForbidden (status : Nat) (error : String)
      (required : List String) (current : String) : GateOutcome
  deriving DecidableEq, Repr

/-- `authMiddleware`: parse the `Authorization: Bearer <token>` header, verify
the access token (`verify` models `authService.verifyAccessToken`, `none`
meaning it throws "Invalid or expired access token"), and on success inject
`request.user = { userId: payload.userId }` — the source stores only the
userId; the payload's role claim is not copied into `request.user`. -/
def authMiddleware (verify : String → Option AccessPayload)
    (authHeader : Option String) : Except (Nat × String) RequestUser :=
  if jsFalsy authHeader then Except.error (401, "No authorization header provided")
  else
    let parts := jsSplitSpace (authHeader.getD "")
    if parts.length != 2 || parts.headD "" != "Bearer" then
      Except.error (401, "Invalid authorization header format. Expected: Bearer <token>")
    else
      let token := parts.getD 1 ""
      if token = "" then Except.error (401, "Token not provided")
      else
        match verify token with
        | none => Except.error (401, "Invalid or expired access token")
        | some payload => Except.ok { userId := payload.userId, role := none }

/-- `requireRole(...allowedRoles)`: read `request.user?.userId` and
`request.user?.role`; reject 401 "Non authentifié" when either is falsy;
reject 403 "Permissions insuffisantes" with `required` and `current` when the
role is not in the allowed list; otherwise fall through. -/
def requireRole (allowedRoles : List String) (user : Option RequestUser) : GateOutcome :=
  match user with
  | none => GateOutcome.reply 401 "Non authentifié"
  | some u =>
    if u.userId = "" then GateOutcome.reply 401 "Non authentifié"
    else
      match u.role with
      | none => GateOutcome.reply 401 "Non authentifié"
      | some role =>
        if role = "" then GateOutcome.reply 401 "Non authentifié"
        else if allowedRoles.contains role then GateOutcome.next
        else GateOutcome.replyForbidden 403 "Permissions insuffisantes" allowedRoles role

/-- The admin-route middleware chain: `authMiddleware` then
`requireRole(...allowedRoles)` (as wired by `admin.route.ts` with two
sequential `preHandler` hooks). -/
def authThenRequireRole (verify : String → Option AccessPayload)
    (allowedRoles : List String) (authHeader : Option String) : GateOutcome :=
  match authMiddleware verify authHeader with
  | Except.error (status, message) => GateOutcome.reply status message
  | Except.ok user => requireRole allowedRoles (some user)

/-- The request data read by `csrfMiddleware`: the HTTP method, the url, the
authenticated user id (`request.user?.userId`), the `csrfToken` cookie and the
`x-csrf-token` header. -/
structure CsrfRequest where
  method : String
  url : String
  userId : Option String
  csrfCookie : Option String
  csrfHeader : Option String
  deriving DecidableEq, Repr

/-- The read-only methods `csrfMiddleware` ignores. -/
def safeMethods : List String := ["GET", "HEAD", "OPTIONS"]

/-- The unauthenticated bootstrap routes `csrfMiddleware` ignores. -/
def publicRoutes : List String := ["/api/auth/login", "/api/auth/register", "/api/auth/refresh"]

/-- `csrfMiddleware`: skip safe methods, public routes and unauthenticated
requests; then (1) reject "CSRF token missing" when cookie or header is
absent, (2) reject "CSRF token mismatch" when they differ, (3) validate the
value with `CsrfService.verifyToken` (which may delete an expired row) and
reject "Invalid CSRF token" when it fails. -/
def csrfMiddleware (now : Nat) (db : DB) (req : CsrfRequest) : GateOutcome × DB :=
  if safeMethods.contains req.method then (GateOutcome.next, db)
  else if publicRoutes.any (fun route => jsStartsWith req.url route) then (GateOutcome.next, db)
  else if jsFalsy req.userId then (GateOutcome.next, db)
  else if jsFalsy req.csrfCookie || jsFalsy req.csrfHeader then
    (GateOutcome.reply 403 "CSRF token missing", db)
  else if req.csrfCookie != req.csrfHeader then
    (GateOutcome.reply 403 "CSRF token mismatch", db)
  else
    let result := CsrfService.verifyToken now (req.csrfCookie.getD "") (req.userId.getD "") db
    if result.1 then (GateOutcome.next, result.2)
    else (GateOutcome.reply 403 "Invalid CSRF token", result.2)

/-- Rows of a user in the `CsrfToken` table. -/
def countCsrfRows (uid : String) (db : DB) : Nat :=
  (db.csrfTokens.filter fun r => r.userId == uid).length

/-! ### Concrete fixtures used by witness and counterexample theorems -/

/-- An oracle environment whose JWT and bcrypt checks always succeed and
which mints fixed token values. -/
def envW : AuthEnv :=
  ⟨fun _ => true, fun _ _ => "AT2", fun _ => "RT2", fun _ _ => true,
    fun p => String.append "hash-" p⟩

/-- `envW` with a failing password comparison. -/
def envBadPasswordW : AuthEnv :=
  ⟨fun _ => true, fun _ _ => "AT2", fun _ => "RT2", fun _ _ => false,
    fun p => String.append "hash-" p⟩

/-- A user on record. -/
def aliceW : UserRow := ⟨"u1", "a@test.com", "h1", "USER", true⟩

/-- Store holding `aliceW` and one active refresh token of hers. -/
def dbRefreshW : DB := ⟨[aliceW], [⟨1, "RT1", "u1", 100, false⟩], [], [], []⟩

/-- Store holding an unexpired CSRF token owned by user `u1`. -/
def dbCsrfW : DB := ⟨[], [], [], [], [⟨5, "CS1", "u1", 1000⟩]⟩

/-- Store holding a CSRF token of user `u1` that expires at instant 10. -/
def dbCsrfExpiredW : DB := ⟨[], [], [], [], [⟨5, "CS1", "u1", 10⟩]⟩

/-- A state-changing request authenticated as `u2`, echoing in cookie and
header the CSRF token issued to `u1`. -/
def reqOtherUserW : CsrfRequest := ⟨"POST", "/api/profile", some "u2", some "CS1", some "CS1"⟩

/-- Store holding `aliceW`, one active refresh token and one unexpired
password-reset token of hers. -/
def dbResetW : DB := ⟨[aliceW], [⟨1, "RT1", "u1", 100, false⟩], [], [⟨3, "PR1", "u1", 500⟩], []⟩

/-- The store `dbResetW` after a successful reset of `PR1` at instant 50
under `envW`: password re-hashed, reset tokens gone, refresh token revoked. -/
def dbAfterResetW : DB :=
  ⟨[⟨"u1", "a@test.com", "hash-npw", "USER", true⟩], [⟨1, "RT1", "u1", 100, true⟩], [], [], []⟩

/-- Store holding a verification token that expires at instant 10. -/
def dbSweepW : DB := ⟨[], [], [⟨7, "VT1", "u1", 10⟩], [], []⟩

/-- Access-token verifier accepting two tokens: `tok1` carries role `ADMIN`,
`tok2` carries role `USER`. -/
def verifyW : String → Option AccessPayload := fun t =>
  if t == "tok1" then some ⟨"u1", "ADMIN"⟩
  else if t == "tok2" then some ⟨"u2", "USER"⟩
  else none

/-! ## Helper lemmas -/

theorem find?_append_left {α : Type} {p : α → Bool} {l1 : List α} (l2 : List α) {a : α}
    (h : l1.find? p = some a) : (l1 ++ l2).find? p = some a := by
  rw [List.find?_append, h]
  rfl

theorem find?_map_pred {α : Type} (f : α → α) (p : α → Bool)
    (hf : ∀ x, p (f x) = p x) (l : List α) :
    (l.map f).find? p = (l.find? p).map f := by
  induction l with
  | nil => rfl
  | cons x xs ih =>
    by_cases hx : p x = true
    · rw [List.map_cons, List.find?_cons_of_pos _ (by rw [hf]; exact hx),
        List.find?_cons_of_pos _ hx]
      rfl
    · rw [List.map_cons, List.find?_cons_of_neg _ (by rw [hf]; exact hx),
        List.find?_cons_of_neg _ hx, ih]

/-! ## C1 — refresh-token rotation and single use -/

/-- C1: `AuthService.refresh` succeeds only if both layers pass — the JWT
verifies under the refresh secret and a stored `RefreshToken` row with that
value exists, is not revoked and is not expired; on success the old row is
revoked and a fresh row is stored (rotation), and any second redemption of
the same token value then fails with "Invalid or expired refresh token",
whatever the later time and JWT validity. -/
theorem refresh_rotation_single_use (env : AuthEnv) (now freshId : Nat) (db : DB)
    (t : String) (db2 : DB) (res : AuthService.RefreshResult)
    (hok : AuthService.refresh env now freshId db t = Except.ok (db2, res)) :
    (env.refreshValid t = true ∧
      ∃ r ∈ db.refreshTokens, r.token = t ∧ r.revoked = false ∧ ¬ r.expiresAt < now) ∧
    (∃ r ∈ db2.refreshTokens, r.token = t ∧ r.revoked = true) ∧
    (∃ r ∈ db2.refreshTokens, r.token = res.refreshToken ∧ r.revoked = false ∧
      r.expiresAt = now + sevenDaysMs) ∧
    (∀ (env2 : AuthEnv) (now2 freshId2 : Nat),
      AuthService.refresh env2 now2 freshId2 db2 t =
        Except.error "Invalid or expired refresh token") := by
  unfold AuthService.refresh at hok
  by_cases hv : env.refreshValid t
  case neg => simp [hv] at hok
  rw [if_pos hv] at hok
  cases hfind : db.refreshTokens.find? (fun r => r.token == t) with
  | none => rw [hfind] at hok; dsimp only at hok; exact absurd hok (by simp)
  | some st =>
    rw [hfind] at hok
    dsimp only at hok
    by_cases hrc : (st.revoked || decide (st.expiresAt < now)) = true
    · rw [if_pos hrc] at hok; exact absurd hok (by simp)
    · rw [if_neg hrc] at hok
      cases huser : db.users.find? (fun u => u.id == st.userId) with
      | none => rw [huser] at hok; dsimp only at hok; exact absurd hok (by simp)
      | some user =>
        rw [huser] at hok
        dsimp only at hok
        simp only [AuthService.storeRefreshToken, Except.ok.injEq, Prod.mk.injEq] at hok
        obtain ⟨hdb2, hres⟩ := hok
        subst hdb2
        subst hres
        have hmem : st ∈ db.refreshTokens := List.mem_of_find?_eq_some hfind
        have htok : st.token = t := by
          have h0 := List.find?_some hfind
          simpa using h0
        simp only [Bool.or_eq_true, decide_eq_true_eq, not_or, Bool.not_eq_true] at hrc
        obtain ⟨hrev, hexp⟩ := hrc
        have hfstp : ∀ x : RefreshTokenRow,
            ((if x.id == st.id then { x with revoked := true } else x).token == t)
              = (x.token == t) := by
          intro x
          by_cases hx : x.id == st.id <;> simp [hx]
        have hfst : (if st.id == st.id then { st with revoked := true } else st)
            = { st with revoked := true } := by simp
        refine ⟨⟨hv, st, hmem, htok, hrev, hexp⟩, ?_, ?_, ?_⟩
        · refine ⟨{ st with revoked := true }, ?_, by simpa using htok, rfl⟩
          apply List.mem_append_left
          simpa [hfst] using
            List.mem_map_of_mem (fun r : RefreshTokenRow =>
              if r.id == st.id then { r with revoked := true } else r) hmem
        · exact ⟨⟨freshId, env.signRefresh st.userId, st.userId, now + sevenDaysMs, false⟩,
            List.mem_append_right _ (by simp), rfl, rfl, rfl⟩
        · intro env2 now2 freshId2
          unfold AuthService.refresh
          by_cases hv2 : env2.refreshValid t
          case neg => simp [hv2]
          rw [if_pos hv2]
          have hmap : (db.refreshTokens.map (fun r : RefreshTokenRow =>
              if r.id == st.id then { r with revoked := true } else r)).find?
                (fun r => r.token == t) = some { st with revoked := true } := by
            rw [find?_map_pred _ _ hfstp, hfind]
            rw [Option.map_some']
            rw [hfst]
          have happ := find?_append_left
            [⟨freshId, env.signRefresh st.userId, st.userId, now + sevenDaysMs, false⟩] hmap
          simp only [happ]
          simp


/-- C1 witness: a concrete successful refresh discharging the success
hypothesis of `refresh_rotation_single_use` by evaluation. -/
theorem refresh_rotation_single_use_witness :
    AuthService.refresh envW 50 2 dbRefreshW "RT1" =
      Except.ok (⟨[aliceW], [⟨1, "RT1", "u1", 100, true⟩, ⟨2, "RT2", "u1", 604800050, false⟩],
        [], [], []⟩, ⟨"AT2", "RT2"⟩) ∧
    (envW.refreshValid "RT1" = true ∧
      ∃ r ∈ dbRefreshW.refreshTokens, r.token = "RT1" ∧ r.revoked = false ∧
        ¬ r.expiresAt < 50) :=
  ⟨rfl, (refresh_rotation_single_use envW 50 2 dbRefreshW "RT1"
    ⟨[aliceW], [⟨1, "RT1", "u1", 100, true⟩, ⟨2, "RT2", "u1", 604800050, false⟩], [], [], []⟩
    ⟨"AT2", "RT2"⟩ rfl).1⟩

/-! ## C2 — role gate after the auth middleware -/

/-- C2 (code bug, evaluated at the failing input): `authMiddleware` verifies
the access token but injects only the userId into `request.user`
(`request.user = { userId: payload.userId }`), dropping the role claim, so
`requireRole` answers 401 "Non authentifié" to every request that passed the
auth middleware — both for a token carrying role `ADMIN` (which the claim
says must be allowed) and for one carrying role `USER` (which the claim says
must get the 403 reporting required and current roles).  The last conjunct
shows the gate itself would produce that 403 if the role claim reached it. -/
theorem role_gate_never_sees_token_role :
    authMiddleware verifyW (some "Bearer tok1") = Except.ok ⟨"u1", none⟩ ∧
    authThenRequireRole verifyW ["ADMIN"] (some "Bearer tok1") =
      GateOutcome.reply 401 "Non authentifié" ∧
    authThenRequireRole verifyW ["ADMIN"] (some "Bearer tok2") =
      GateOutcome.reply 401 "Non authentifié" ∧
    requireRole ["ADMIN"] (some ⟨"u2", some "USER"⟩) =
      GateOutcome.replyForbidden 403 "Permissions insuffisantes" ["ADMIN"] "USER" :=
  ⟨rfl, rfl, rfl, rfl⟩

/-! ## C3 — constant-time credential check -/

/-- C3: `AuthService.login` runs exactly one bcrypt comparison on every
input — against the stored (non-empty) hash when a user with that email
exists, against the fixed dummy hash when none does — and both failure cases
(unknown email, wrong password) return the same single error
"Invalid credentials". -/
theorem login_single_comparison_generic_error (env : AuthEnv) (now freshId : Nat)
    (db : DB) (email password : String) :
    (AuthService.login env now freshId db email password).2.length = 1 ∧
    (db.users.find? (fun u => u.email == email) = none →
      AuthService.login env now freshId db email password =
        (Except.error "Invalid credentials", [(password, AuthService.dummyBcryptHash)])) ∧
    (∀ u, db.users.find? (fun u2 => u2.email == email) = some u → u.password ≠ "" →
      (AuthService.login env now freshId db email password).2 = [(password, u.password)] ∧
      (env.bcryptCompare password u.password = false →
        (AuthService.login env now freshId db email password).1 =
          Except.error "Invalid credentials")) := by
  unfold AuthService.login
  cases hfind : db.users.find? (fun u => u.email == email) with
  | none =>
    dsimp only
    refine ⟨rfl, fun _ => rfl, ?_⟩
    intro u hu
    exact absurd hu (by simp)
  | some u0 =>
    dsimp only
    refine ⟨?_, by intro h; exact absurd h (by simp), ?_⟩
    · by_cases hc : env.bcryptCompare password
          (if u0.password = "" then AuthService.dummyBcryptHash else u0.password) = true
      · rw [if_pos hc]
        rfl
      · rw [if_neg hc]
        rfl
    · intro u hu hpw
      have hu0 : u0 = u := by
        have := hu
        simp only [Option.some.injEq] at this
        exact this
      subst hu0
      rw [if_neg hpw]
      constructor
      · by_cases hc : env.bcryptCompare password u0.password = true
        · rw [if_pos hc]
        · rw [if_neg hc]
      · intro hcmp
        rw [hcmp]
        rfl

/-- C3 witness: both failure cases at concrete stores — unknown email
compares against the dummy hash, wrong password compares against the stored
hash — and both yield "Invalid credentials". -/
theorem login_single_comparison_generic_error_witness :
    AuthService.login envW 0 7 dbRefreshW "nobody@test.com" "pw" =
      (Except.error "Invalid credentials", [("pw", AuthService.dummyBcryptHash)]) ∧
    (AuthService.login envBadPasswordW 0 7 dbRefreshW "a@test.com" "pw").2 =
      [("pw", "h1")] ∧
    (AuthService.login envBadPasswordW 0 7 dbRefreshW "a@test.com" "pw").1 =
      Except.error "Invalid credentials" := by
  refine ⟨(login_single_comparison_generic_error envW 0 7 dbRefreshW
    "nobody@test.com" "pw").2.1 rfl, ?_, ?_⟩
  · exact ((login_single_comparison_generic_error envBadPasswordW 0 7 dbRefreshW
      "a@test.com" "pw").2.2 aliceW rfl (by decide)).1
  · exact ((login_single_comparison_generic_error envBadPasswordW 0 7 dbRefreshW
      "a@test.com" "pw").2.2 aliceW rfl (by decide)).2 rfl

/-! ## C4 — three ordered CSRF checks -/

theorem verifyToken_no_row (now : Nat) (t uid : String) (db : DB)
    (h : db.csrfTokens.find? (fun r => r.token == t && r.userId == uid) = none) :
    CsrfService.verifyToken now t uid db = (false, db) := by
  unfold CsrfService.verifyToken
  rw [h]

theorem verifyToken_true_db (now : Nat) (t uid : String) (db : DB)
    (h : (CsrfService.verifyToken now t uid db).1 = true) :
    CsrfService.verifyToken now t uid db = (true, db) := by
  unfold CsrfService.verifyToken at h ⊢
  cases hf : db.csrfTokens.find? (fun r => r.token == t && r.userId == uid) with
  | none =>
    rw [hf] at h
    exact absurd h (by simp)
  | some r0 =>
    rw [hf] at h
    dsimp only at h ⊢
    by_cases hexp : r0.expiresAt < now
    · rw [if_pos hexp] at h
      exact absurd h (by simp)
    · rw [if_neg hexp]

/-- C4: for an authenticated state-changing request the CSRF middleware
applies three checks in order with distinct errors — "CSRF token missing"
when the cookie or the header is absent, "CSRF token mismatch" when they
differ, "Invalid CSRF token" when the value fails the store check (in
particular when no stored row carries that value for the requesting user,
which covers a token issued to a different user) — and the request proceeds
only when all three pass. -/
theorem csrf_three_ordered_checks (now : Nat) (db : DB) (req : CsrfRequest) (uid : String)
    (hm : safeMethods.contains req.method = false)
    (hr : publicRoutes.any (fun route => jsStartsWith req.url route) = false)
    (hid : req.userId = some uid) (hid0 : uid ≠ "") :
    ((jsFalsy req.csrfCookie || jsFalsy req.csrfHeader) = true →
      csrfMiddleware now db req = (GateOutcome.reply 403 "CSRF token missing", db)) ∧
    (∀ c h, req.csrfCookie = some c → req.csrfHeader = some h → c ≠ "" → h ≠ "" →
      c ≠ h →
      csrfMiddleware now db req = (GateOutcome.reply 403 "CSRF token mismatch", db)) ∧
    (∀ c, req.csrfCookie = some c → req.csrfHeader = some c → c ≠ "" →
      (((CsrfService.verifyToken now c uid db).1 = false →
        csrfMiddleware now db req =
          (GateOutcome.reply 403 "Invalid CSRF token",
            (CsrfService.verifyToken now c uid db).2)) ∧
      ((CsrfService.verifyToken now c uid db).1 = true →
        csrfMiddleware now db req = (GateOutcome.next, db)) ∧
      ((∀ r ∈ db.csrfTokens, ¬(r.token = c ∧ r.userId = uid)) →
        csrfMiddleware now db req = (GateOutcome.reply 403 "Invalid CSRF token", db)))) := by
  have hfals : jsFalsy req.userId = false := by
    rw [hid]
    simpa [jsFalsy] using hid0
  refine ⟨?_, ?_, ?_⟩
  · intro hmiss
    unfold csrfMiddleware
    rw [if_neg (by rw [hm]; simp), if_neg (by rw [hr]; simp), if_neg (by rw [hfals]; simp),
      if_pos hmiss]
  · intro c h hc hh hc0 hh0 hne
    unfold csrfMiddleware
    rw [if_neg (by rw [hm]; simp), if_neg (by rw [hr]; simp), if_neg (by rw [hfals]; simp),
      if_neg (by simp [jsFalsy, hc, hh, hc0, hh0]),
      if_pos (by simp [hc, hh]; exact hne)]
  · intro c hc hhd hc0
    have hbase : csrfMiddleware now db req =
        (if (CsrfService.verifyToken now c uid db).1 then (GateOutcome.next, (CsrfService.verifyToken now c uid db).2)
          else (GateOutcome.reply 403 "Invalid CSRF token", (CsrfService.verifyToken now c uid db).2)) := by
      unfold csrfMiddleware
      rw [if_neg (by rw [hm]; simp), if_neg (by rw [hr]; simp), if_neg (by rw [hfals]; simp),
        if_neg (by simp [jsFalsy, hc, hhd, hc0]),
        if_neg (by simp [hc, hhd])]
      rw [hc, hid]
      rfl
    refine ⟨?_, ?_, ?_⟩
    · intro hv
      rw [hbase, hv]
      rfl
    · intro hv
      rw [hbase, hv, verifyToken_true_db now c uid db hv]
      rfl
    · intro hno
      have hnone : db.csrfTokens.find? (fun r => r.token == c && r.userId == uid) = none := by
        apply List.find?_eq_none.mpr
        intro x hx hb
        have hb2 : x.token = c ∧ x.userId = uid := by simpa using hb
        exact hno x hx hb2
      rw [hbase, verifyToken_no_row now c uid db hnone]
      rfl

/-- C4 witness: the ownership check at a concrete store — the CSRF token
issued to user `u1`, correctly echoed in cookie and header but presented by
authenticated user `u2`, is rejected with "Invalid CSRF token" even though
it is unexpired. -/
theorem csrf_three_ordered_checks_witness :
    csrfMiddleware 100 dbCsrfW reqOtherUserW =
      (GateOutcome.reply 403 "Invalid CSRF token", dbCsrfW) := by
  have h := csrf_three_ordered_checks 100 dbCsrfW reqOtherUserW "u2"
    (by decide) (by decide) rfl (by decide)
  exact (h.2.2 "CS1" rfl rfl (by decide)).2.2 (by decide)

/-! ## C5 — sweep failure handling -/

/-- C5 counterexample: with the first table's `deleteMany` throwing, the
failure is caught and logged, but the expired verification token in the
second table survives the pass — the remaining tables' deletions are not
attempted, because all four deletions sit in one `try/catch`. -/
theorem cleanup_abort_counterexample :
    CleanupService.cleanupExpiredTokens ⟨true, false, false, false⟩ 100 dbSweepW =
      (dbSweepW, true) ∧
    (⟨7, "VT1", "u1", 10⟩ : TokenRow) ∈ dbSweepW.verificationTokens ∧ (10 : Nat) < 100 :=
  ⟨rfl, by decide, by decide⟩

/-- C5 (amended): the four deletions run inside a single `try/catch`.  A
failure is logged and not propagated (the sweep returns a state and a logged
flag, never an exception), tables before the failing one are swept, but the
failing table and every table after it are left untouched in that pass; only
a failure-free pass sweeps all four tables. -/
theorem cleanup_single_try_catch (f : CleanupService.SweepFailure) (now : Nat) (db : DB) :
    (CleanupService.cleanupExpiredTokens f now db).2 =
      (f.refreshFails || f.verificationFails || f.resetFails || f.csrfFails) ∧
    (f.refreshFails = true → CleanupService.cleanupExpiredTokens f now db = (db, true)) ∧
    (f.refreshFails = false → f.verificationFails = true →
      CleanupService.cleanupExpiredTokens f now db =
        ({ users := db.users,
           refreshTokens := db.refreshTokens.filter (fun r => !(decide (r.expiresAt < now))),
           verificationTokens := db.verificationTokens,
           passwordResetTokens := db.passwordResetTokens,
           csrfTokens := db.csrfTokens }, true)) ∧
    (f.refreshFails = false → f.verificationFails = false → f.resetFails = false →
      f.csrfFails = false →
      CleanupService.cleanupExpiredTokens f now db =
        ({ users := db.users,
           refreshTokens := db.refreshTokens.filter (fun r => !(decide (r.expiresAt < now))),
           verificationTokens := CleanupService.sweepRows now db.verificationTokens,
           passwordResetTokens := CleanupService.sweepRows now db.passwordResetTokens,
           csrfTokens := CleanupService.sweepRows now db.csrfTokens }, false)) := by
  obtain ⟨a, b, c, d⟩ := f
  cases a <;> cases b <;> cases c <;> cases d <;>
    simp [CleanupService.cleanupExpiredTokens]

/-- C5 witness for the amended statement: an aborted pass and a complete
pass at a concrete store. -/
theorem cleanup_single_try_catch_witness :
    CleanupService.cleanupExpiredTokens ⟨true, false, false, false⟩ 100 dbSweepW =
      (dbSweepW, true) ∧
    CleanupService.cleanupExpiredTokens CleanupService.noFailure 100 dbSweepW =
      (⟨[], [], [], [], []⟩, false) := by
  refine ⟨(cleanup_single_try_catch ⟨true, false, false, false⟩ 100 dbSweepW).2.1 rfl, ?_⟩
  have h := (cleanup_single_try_catch CleanupService.noFailure 100 dbSweepW).2.2.2
    rfl rfl rfl rfl
  rw [h]
  decide

/-! ## C6 — at most one CSRF token per user -/

theorem filter_user_skip (l : List TokenRow) (uid : String) :
    (l.filter (fun r => r.userId != uid)).filter (fun r => r.userId == uid) = [] := by
  rw [List.filter_filter]
  apply List.filter_eq_nil_iff.mpr
  intro a _
  by_cases hx : (a.userId == uid) = true
  · simp [hx]
    exact eq_of_beq hx
  · simp [hx]

theorem filter_user_replace (l : List TokenRow) (uid : String) (row : TokenRow)
    (hrow : row.userId = uid) :
    ((l.filter (fun r => r.userId != uid)) ++ [row]).filter (fun r => r.userId == uid)
      = [row] := by
  rw [List.filter_append, filter_user_skip]
  simp [hrow]

theorem filter_user_other (l : List TokenRow) (uid u2 : String) (h : u2 ≠ uid)
    (row : TokenRow) (hrow : row.userId = uid) :
    ((l.filter (fun r => r.userId != uid)) ++ [row]).filter (fun r => r.userId == u2)
      = l.filter (fun r => r.userId == u2) := by
  rw [List.filter_append]
  have h2 : [row].filter (fun r => r.userId == u2) = [] := by
    simp [hrow]
    exact fun hc => h hc.symm
  rw [h2, List.append_nil, List.filter_filter]
  apply List.filter_congr
  intro a _
  by_cases ha : (a.userId == u2) = true
  · have ha2 : a.userId = u2 := eq_of_beq ha
    have ha3 : (a.userId != uid) = true := by
      simp [ha2]
      exact h
    rw [ha, ha3]
    rfl
  · have ha4 : (a.userId == u2) = false := by
      cases hx : a.userId == u2
      · rfl
      · exact absurd hx ha
    rw [ha4]
    rfl

/-- C6: `CsrfService.generateToken` leaves exactly one `CsrfToken` row for
the user (it deletes all prior rows of that user before inserting the new
one) and leaves other users' rows unchanged; `verifyToken` and
`revokeUserTokens` never increase any user's row count, and revocation
empties the target user's rows — so every CSRF operation preserves the
at-most-one-active-token-per-user invariant. -/
theorem csrf_at_most_one_per_user (now freshId : Nat) (freshToken uid : String) (db : DB) :
    countCsrfRows uid (CsrfService.generateToken now freshId freshToken uid db).2 = 1 ∧
    (∀ u2, u2 ≠ uid →
      countCsrfRows u2 (CsrfService.generateToken now freshId freshToken uid db).2 =
        countCsrfRows u2 db) ∧
    (∀ t u u2, countCsrfRows u2 (CsrfService.verifyToken now t u db).2 ≤
      countCsrfRows u2 db) ∧
    (∀ u u2, countCsrfRows u2 (CsrfService.revokeUserTokens u db) ≤ countCsrfRows u2 db) ∧
    countCsrfRows uid (CsrfService.revokeUserTokens uid db) = 0 := by
  refine ⟨?_, ?_, ?_, ?_, ?_⟩
  · unfold countCsrfRows CsrfService.generateToken
    dsimp only
    rw [filter_user_replace db.csrfTokens uid
      ⟨freshId, freshToken, uid, now + oneHourMs⟩ rfl]
    rfl
  · intro u2 hu2
    unfold countCsrfRows CsrfService.generateToken
    dsimp only
    rw [filter_user_other db.csrfTokens uid u2 hu2
      ⟨freshId, freshToken, uid, now + oneHourMs⟩ rfl]
  · intro t u u2
    unfold countCsrfRows CsrfService.verifyToken
    cases hf : db.csrfTokens.find? (fun r => r.token == t && r.userId == u) with
    | none => exact le_refl _
    | some r0 =>
      dsimp only
      by_cases hexp : r0.expiresAt < now
      · rw [if_pos hexp]
        dsimp only
        exact ((List.filter_sublist _).filter _).length_le
      · rw [if_neg hexp]
  · intro u u2
    unfold countCsrfRows CsrfService.revokeUserTokens
    exact ((List.filter_sublist _).filter _).length_le
  · unfold countCsrfRows CsrfService.revokeUserTokens
    rw [filter_user_skip]
    rfl

/-- C6 witness: issuance at a concrete store — exactly one row remains for
the issuing user and another user's count is untouched. -/
theorem csrf_at_most_one_per_user_witness :
    countCsrfRows "u1" (CsrfService.generateToken 0 9 "CS2" "u1" dbCsrfW).2 = 1 ∧
    countCsrfRows "u2" (CsrfService.generateToken 0 9 "CS2" "u1" dbCsrfW).2 =
      countCsrfRows "u2" dbCsrfW := by
  have h := csrf_at_most_one_per_user 0 9 "CS2" "u1" dbCsrfW
  exact ⟨h.1, h.2.1 "u2" (by decide)⟩

/-! ## C7 — password reset revokes the whole session set -/

/-- C7: a successful password reset through a valid, unexpired reset token
marks every refresh-token row of that user revoked (not just the current
one), deletes all of the user's password-reset tokens, and replaces the
user's stored hash with the hash of the new password. -/
theorem resetPassword_global_logout (env : AuthEnv) (now : Nat)
    (token newPassword : String) (db db2 : DB) (res : PasswordResetService.SuccessResult)
    (hok : PasswordResetService.resetPassword env now token newPassword db =
      Except.ok (res, db2)) :
    res = ⟨true⟩ ∧
    ∃ rt ∈ db.passwordResetTokens, rt.token = token ∧ ¬ rt.expiresAt < now ∧
      (∀ r ∈ db2.refreshTokens, r.userId = rt.userId → r.revoked = true) ∧
      (∀ r ∈ db2.passwordResetTokens, r.userId ≠ rt.userId) ∧
      (∀ u ∈ db2.users, u.id = rt.userId → u.password = env.bcryptHash newPassword) := by
  unfold PasswordResetService.resetPassword PasswordResetService.verifyResetToken at hok
  cases hfind : db.passwordResetTokens.find? (fun r => r.token == token) with
  | none =>
    rw [hfind] at hok
    exact absurd hok (by simp)
  | some rt =>
    rw [hfind] at hok
    dsimp only at hok
    by_cases hexp : rt.expiresAt < now
    · rw [if_pos hexp] at hok
      exact absurd hok (by simp)
    · rw [if_neg hexp] at hok
      dsimp only at hok
      by_cases hany : db.users.any (fun u => u.id == rt.userId) = true
      · rw [if_pos hany] at hok
        simp only [Except.ok.injEq, Prod.mk.injEq] at hok
        obtain ⟨hres, hdb⟩ := hok
        subst hres
        subst hdb
        have hmem : rt ∈ db.passwordResetTokens := List.mem_of_find?_eq_some hfind
        have htok : rt.token = token := by
          have h0 := List.find?_some hfind
          simpa using h0
        refine ⟨rfl, rt, hmem, htok, hexp, ?_, ?_, ?_⟩
        · intro r hr hruid
          obtain ⟨r0, hr0, hfr⟩ := List.mem_map.mp hr
          by_cases hcase : (r0.userId == rt.userId) = true
          · rw [if_pos hcase] at hfr
            rw [← hfr]
          · rw [if_neg hcase] at hfr
            subst hfr
            exact absurd (by simp [hruid]) hcase
        · intro r hr
          have h0 := (List.mem_filter.mp hr).2
          simpa using h0
        · intro u hu huid
          obtain ⟨u0, hu0, hfu⟩ := List.mem_map.mp hu
          by_cases hcase : (u0.id == rt.userId) = true
          · rw [if_pos hcase] at hfu
            rw [← hfu]
          · rw [if_neg hcase] at hfu
            subst hfu
            exact absurd (by simp [huid]) hcase
      · rw [if_neg hany] at hok
        exact absurd hok (by simp)

/-- C7 witness: resetting alice's password at a concrete store — her refresh
token ends revoked, her reset tokens are gone, her hash is replaced. -/
theorem resetPassword_global_logout_witness :
    PasswordResetService.resetPassword envW 50 "PR1" "npw" dbResetW =
      Except.ok (⟨true⟩, dbAfterResetW) ∧
    ((⟨true⟩ : PasswordResetService.SuccessResult) = ⟨true⟩ ∧
      ∃ rt ∈ dbResetW.passwordResetTokens, rt.token = "PR1" ∧ ¬ rt.expiresAt < 50 ∧
        (∀ r ∈ dbAfterResetW.refreshTokens, r.userId = rt.userId → r.revoked = true) ∧
        (∀ r ∈ dbAfterResetW.passwordResetTokens, r.userId ≠ rt.userId) ∧
        (∀ u ∈ dbAfterResetW.users, u.id = rt.userId →
          u.password = envW.bcryptHash "npw")) :=
  ⟨rfl, resetPassword_global_logout envW 50 "PR1" "npw" dbResetW dbAfterResetW ⟨true⟩ rfl⟩

/-! ## C8 — idempotent expiry sweep -/

theorem filter_idem {α : Type} (p : α → Bool) (l : List α) :
    (l.filter p).filter p = l.filter p := by
  rw [List.filter_filter]
  apply List.filter_congr
  intro a _
  exact Bool.and_self (p a)

/-- C8: with the failure-free store, running the sweep twice at the same
instant changes nothing on the second run (zero deletions), and no token
whose expiry lies strictly after the current instant is deleted by either
run. -/
theorem cleanup_idempotent_keeps_unexpired (now : Nat) (db : DB) :
    (CleanupService.cleanupExpiredTokens CleanupService.noFailure now
        (CleanupService.cleanupExpiredTokens CleanupService.noFailure now db).1).1 =
      (CleanupService.cleanupExpiredTokens CleanupService.noFailure now db).1 ∧
    (∀ r ∈ db.refreshTokens, now < r.expiresAt →
      r ∈ (CleanupService.cleanupExpiredTokens CleanupService.noFailure now
        db).1.refreshTokens) ∧
    (∀ r ∈ db.verificationTokens, now < r.expiresAt →
      r ∈ (CleanupService.cleanupExpiredTokens CleanupService.noFailure now
        db).1.verificationTokens) ∧
    (∀ r ∈ db.passwordResetTokens, now < r.expiresAt →
      r ∈ (CleanupService.cleanupExpiredTokens CleanupService.noFailure now
        db).1.passwordResetTokens) ∧
    (∀ r ∈ db.csrfTokens, now < r.expiresAt →
      r ∈ (CleanupService.cleanupExpiredTokens CleanupService.noFailure now
        db).1.csrfTokens) := by
  refine ⟨?_, ?_, ?_, ?_, ?_⟩
  · simp [CleanupService.cleanupExpiredTokens, CleanupService.noFailure,
      CleanupService.sweepRows, filter_idem]
  · intro r hr hlt
    simp only [CleanupService.cleanupExpiredTokens, CleanupService.noFailure,
      CleanupService.sweepRows, Bool.false_eq_true, if_false]
    exact List.mem_filter.mpr ⟨hr, by simpa using Nat.lt_asymm hlt⟩
  · intro r hr hlt
    simp only [CleanupService.cleanupExpiredTokens, CleanupService.noFailure,
      CleanupService.sweepRows, Bool.false_eq_true, if_false]
    exact List.mem_filter.mpr ⟨hr, by simpa using Nat.lt_asymm hlt⟩
  · intro r hr hlt
    simp only [CleanupService.cleanupExpiredTokens, CleanupService.noFailure,
      CleanupService.sweepRows, Bool.false_eq_true, if_false]
    exact List.mem_filter.mpr ⟨hr, by simpa using Nat.lt_asymm hlt⟩
  · intro r hr hlt
    simp only [CleanupService.cleanupExpiredTokens, CleanupService.noFailure,
      CleanupService.sweepRows, Bool.false_eq_true, if_false]
    exact List.mem_filter.mpr ⟨hr, by simpa using Nat.lt_asymm hlt⟩

/-- C8 witness: at a concrete store the double sweep equals the single sweep
and the unexpired CSRF token survives. -/
theorem cleanup_idempotent_keeps_unexpired_witness :
    (CleanupService.cleanupExpiredTokens CleanupService.noFailure 100
        (CleanupService.cleanupExpiredTokens CleanupService.noFailure 100 dbCsrfW).1).1 =
      (CleanupService.cleanupExpiredTokens CleanupService.noFailure 100 dbCsrfW).1 ∧
    (⟨5, "CS1", "u1", 1000⟩ : TokenRow) ∈
      (CleanupService.cleanupExpiredTokens CleanupService.noFailure 100
        dbCsrfW).1.csrfTokens := by
  have h := cleanup_idempotent_keeps_unexpired 100 dbCsrfW
  exact ⟨h.1, h.2.2.2.2 ⟨5, "CS1", "u1", 1000⟩ (by decide) (by decide)⟩

/-! ## C9 — expired CSRF verification mutates the store -/

/-- C9: when `CsrfService.verifyToken` finds the stored row for the given
(token, user) and its expiry has passed, it answers `false` and deletes that
row, so a second verification of the same value finds no row at all and
leaves the store unchanged; when no row matches, the store is already left
unchanged. -/
theorem csrf_verify_expired_deletes_row (now : Nat) (t uid : String) (db : DB) :
    (∀ row, db.csrfTokens.find? (fun r => r.token == t && r.userId == uid) = some row →
      row.expiresAt < now →
      (∀ x ∈ db.csrfTokens, x.token = t → x.userId = uid → x.id = row.id) →
      (CsrfService.verifyToken now t uid db =
        (false, { db with csrfTokens := db.csrfTokens.filter (fun x => x.id != row.id) }) ∧
      CsrfService.verifyToken now t uid
          { db with csrfTokens := db.csrfTokens.filter (fun x => x.id != row.id) } =
        (false,
          { db with csrfTokens := db.csrfTokens.filter (fun x => x.id != row.id) }))) ∧
    (db.csrfTokens.find? (fun r => r.token == t && r.userId == uid) = none →
      CsrfService.verifyToken now t uid db = (false, db)) := by
  constructor
  · intro row hfind hexp huniq
    have hdel : CsrfService.verifyToken now t uid db =
        (false, { db with csrfTokens := db.csrfTokens.filter (fun x => x.id != row.id) }) := by
      unfold CsrfService.verifyToken
      rw [hfind]
      dsimp only
      rw [if_pos hexp]
    have hnone : ({ db with
        csrfTokens := db.csrfTokens.filter (fun x => x.id != row.id) } : DB).csrfTokens.find?
          (fun r => r.token == t && r.userId == uid) = none := by
      apply List.find?_eq_none.mpr
      intro x hx hb
      have hx2 := List.mem_filter.mp hx
      have hb2 : x.token = t ∧ x.userId = uid := by simpa using hb
      have hxid : x.id = row.id := huniq x hx2.1 hb2.1 hb2.2
      have hkeep := hx2.2
      simp [hxid] at hkeep
    exact ⟨hdel, verifyToken_no_row now t uid _ hnone⟩
  · exact verifyToken_no_row now t uid db

/-- C9 witness: an expired token at a concrete store — verification fails,
the row disappears, and a second verification finds nothing and changes
nothing. -/
theorem csrf_verify_expired_deletes_row_witness :
    CsrfService.verifyToken 100 "CS1" "u1" dbCsrfExpiredW =
      (false, { dbCsrfExpiredW with
        csrfTokens := dbCsrfExpiredW.csrfTokens.filter (fun x => x.id != (5 : Nat)) }) ∧
    CsrfService.verifyToken 100 "CS1" "u1" (⟨[], [], [], [], []⟩ : DB) =
      (false, (⟨[], [], [], [], []⟩ : DB)) := by
  have h := (csrf_verify_expired_deletes_row 100 "CS1" "u1" dbCsrfExpiredW).1
    ⟨5, "CS1", "u1", 10⟩ rfl (by decide) (by decide)
  exact ⟨h.1, (csrf_verify_expired_deletes_row 100 "CS1" "u1" ⟨[], [], [], [], []⟩).2 rfl⟩

/-! ## C10 — uniform password-reset request response -/

/-- C10: `requestReset` answers `{success: true}` for every email; when no
user matches, it returns with the store untouched, and when one matches, it
replaces the user's prior reset tokens by a single fresh one expiring in one
hour, leaving all other tables unchanged. -/
theorem requestReset_uniform_response (now freshId : Nat) (freshToken email : String)
    (db : DB) :
    (PasswordResetService.requestReset now freshId freshToken email db).1 = ⟨true⟩ ∧
    (db.users.find? (fun u => u.email == email) = none →
      PasswordResetService.requestReset now freshId freshToken email db = (⟨true⟩, db)) ∧
    (∀ user, db.users.find? (fun u => u.email == email) = some user →
      ((PasswordResetService.requestReset now freshId freshToken email
          db).2.passwordResetTokens.filter (fun r => r.userId == user.id) =
        [⟨freshId, freshToken, user.id, now + oneHourMs⟩] ∧
      (PasswordResetService.requestReset now freshId freshToken email db).2.users =
        db.users ∧
      (PasswordResetService.requestReset now freshId freshToken email db).2.refreshTokens =
        db.refreshTokens ∧
      (PasswordResetService.requestReset now freshId freshToken email db).2.csrfTokens =
        db.csrfTokens)) := by
  unfold PasswordResetService.requestReset
  cases hfind : db.users.find? (fun u => u.email == email) with
  | none =>
    dsimp only
    refine ⟨rfl, fun _ => rfl, ?_⟩
    intro u hu
    exact absurd hu (by simp)
  | some user0 =>
    dsimp only
    refine ⟨rfl, by intro h; exact absurd h (by simp), ?_⟩
    intro user hu
    have h0 : user0 = user := by simpa using hu
    subst h0
    refine ⟨?_, rfl, rfl, rfl⟩
    exact filter_user_replace db.passwordResetTokens user0.id
      ⟨freshId, freshToken, user0.id, now + oneHourMs⟩ rfl

/-- C10 witness: an unknown email leaves the store untouched while still
answering success; a known email ends with exactly the one fresh token. -/
theorem requestReset_uniform_response_witness :
    PasswordResetService.requestReset 0 4 "PR9" "nobody@test.com" dbRefreshW =
      (⟨true⟩, dbRefreshW) ∧
    (PasswordResetService.requestReset 0 4 "PR9" "a@test.com"
        dbRefreshW).2.passwordResetTokens.filter (fun r => r.userId == "u1") =
      [⟨4, "PR9", "u1", 3600000⟩] := by
  refine ⟨(requestReset_uniform_response 0 4 "PR9" "nobody@test.com" dbRefreshW).2.1 rfl, ?_⟩
  exact ((requestReset_uniform_response 0 4 "PR9" "a@test.com" dbRefreshW).2.2
    aliceW rfl).1
